import Mathlib

/-
  Verification development for the nativo repository.

  Shallow embedding of:
  - the numeric codec `DatabaseManager.from_decimals` / `DatabaseManager.to_decimals`
    (src/api/src/shared/database/base.py),
  - the generic partitioned repository `BaseRepository`
    (create / read / update / delete / create_batch / delete_batch / list / count),
  - the concrete schemas Image / Product / Report / User
    (src/api/src/shared/database/repository.py),
  - the entity constructors `Product.to_db` / `Report.to_db`
    (src/api/src/shared/models/request.py),
  - and the report-creation saga, which is described by the specification but whose
    orchestration is not present under src/ (modelled from the spec, see below).

  Python runtime values are modelled by `PyVal`; Python doubles are modelled by the
  exact decimal value of their shortest decimal representation (exact for doubles
  with at most 15 significant decimal digits, the regime the specification names),
  as mantissa * 10 ^ (-scale).  Python exceptions are modelled with `Except PyErr`.
-/

/-- Model of a Python runtime value as it flows through the codec and the store.
`pyfloat m s` is the double printing as the decimal m * 10^(-s); `pydec m s` is a
`decimal.Decimal` of the same value. -/
inductive PyVal where
  | pyint : Int → PyVal
  | pyfloat : Int → Nat → PyVal
  | pystr : String → PyVal
  | pybool : Bool → PyVal
  | pynone : PyVal
  | pydec : Int → Nat → PyVal
  | pylist : List PyVal → PyVal
  | pydict : List (String × PyVal) → PyVal
deriving Repr

/-- Model of a Python exception crossing the embedded code. -/
inductive PyErr where
  | clientError : String → PyErr
  | keyError : PyErr
  | validation : String → PyErr
  | valueError : String → PyErr
  | notImplemented : String → PyErr
  | invalidOperation : PyErr
  | typeError : String → PyErr
deriving Repr

/-- Numeric value of a Python numeric leaf, as mantissa and decimal scale.
Python `bool` is numeric (`True == 1`). -/
def numVal : PyVal → Option (Int × Nat)
  | .pyint n => some (n, 0)
  | .pyfloat m s => some (m, s)
  | .pybool b => some (if b then 1 else 0, 0)
  | .pydec m s => some (m, s)
  | _ => none

mutual

/-- Python `==`: numeric leaves compare by value across int / float / bool / Decimal;
other leaves compare per type; lists pointwise.  Dicts are compared here in key
order (the embedded code only ever compares dicts built in the same field order). -/
def pyEq : PyVal → PyVal → Bool
  | .pylist xs, .pylist ys => pyEqL xs ys
  | .pydict xs, .pydict ys => pyEqD xs ys
  | a, b =>
    match numVal a, numVal b with
    | some (m1, s1), some (m2, s2) => m1 * (10 : Int) ^ s2 == m2 * (10 : Int) ^ s1
    | _, _ =>
      match a, b with
      | .pystr x, .pystr y => x == y
      | .pynone, .pynone => true
      | _, _ => false

def pyEqL : List PyVal → List PyVal → Bool
  | [], [] => true
  | x :: xs, y :: ys => pyEq x y && pyEqL xs ys
  | _, _ => false

def pyEqD : List (String × PyVal) → List (String × PyVal) → Bool
  | [], [] => true
  | (k, v) :: xs, (l, w) :: ys => k == l && pyEq v w && pyEqD xs ys
  | _, _ => false

end

mutual

/-- `DatabaseManager.to_decimals` (base.py:77-86).  Lists and dicts recurse;
`isinstance(obj, (int, float))` also captures `bool`, for which
`Decimal(str(True))` raises `InvalidOperation`; ints and floats become exact
decimals via `Decimal(str(obj))`; everything else is returned unchanged. -/
def to_decimals : PyVal → Except PyErr PyVal
  | .pylist xs =>
    match toDecL xs with
    | .ok ys => .ok (.pylist ys)
    | .error e => .error e
  | .pydict xs =>
    match toDecD xs with
    | .ok ys => .ok (.pydict ys)
    | .error e => .error e
  | .pybool _ => .error .invalidOperation
  | .pyint n => .ok (.pydec n 0)
  | .pyfloat m s => .ok (.pydec m s)
  | v => .ok v

def toDecL : List PyVal → Except PyErr (List PyVal)
  | [] => .ok []
  | x :: xs =>
    match to_decimals x with
    | .error e => .error e
    | .ok y =>
      match toDecL xs with
      | .error e => .error e
      | .ok ys => .ok (y :: ys)

def toDecD : List (String × PyVal) → Except PyErr (List (String × PyVal))
  | [] => .ok []
  | (k, v) :: xs =>
    match to_decimals v with
    | .error e => .error e
    | .ok w =>
      match toDecD xs with
      | .error e => .error e
      | .ok ys => .ok ((k, w) :: ys)

end

mutual

/-- `DatabaseManager.from_decimals` (base.py:66-75).  A Decimal with zero
fractional part (`obj % 1 == 0`) becomes `int(obj)` (exact division), any other
Decimal becomes `float(obj)`; lists and dicts recurse; all else unchanged. -/
def from_decimals : PyVal → PyVal
  | .pylist xs => .pylist (fromDecL xs)
  | .pydict xs => .pydict (fromDecD xs)
  | .pydec m s => if m % (10 : Int) ^ s == 0 then .pyint (m / (10 : Int) ^ s) else .pyfloat m s
  | v => v

def fromDecL : List PyVal → List PyVal
  | [] => []
  | x :: xs => from_decimals x :: fromDecL xs

def fromDecD : List (String × PyVal) → List (String × PyVal)
  | [] => []
  | (k, v) :: xs => (k, from_decimals v) :: fromDecD xs

end

/-- Whether an embedded Python computation completed without an exception
crossing the boundary. -/
def exceptOk : Except PyErr α → Bool
  | .ok _ => true
  | .error _ => false

example : to_decimals (.pybool true) = .error .invalidOperation := rfl
example : to_decimals (.pyint 7) = .ok (.pydec 7 0) := rfl
example : from_decimals (.pydec 25 1) = .pyfloat 25 1 := rfl
example : from_decimals (.pydec 20 1) = .pyint 2 := rfl
example : pyEq (.pyint 2) (.pyfloat 20 1) = true := rfl
example : pyEq (.pystr "a") (.pynone) = false := rfl

/-! ## The key-value store

A DynamoDB item is an attribute map (keys in insertion order); a table is the
list of its items, keyed by the string attribute `id`, as every repository call
site uses (`Key={"id": id}`). -/

/-- A stored item: attribute name to value, in insertion order. -/
abbrev Item : Type := List (String × PyVal)

/-- A table: the items it currently holds. -/
abbrev Table : Type := List Item

/-- `item.get(k)`: the value under `k`, or Python `None` (here `none`). -/
def getAttr (it : Item) (k : String) : Option PyVal :=
  (List.find? (fun kv => kv.1 == k) it).map (fun kv => kv.2)

/-- Python `==` lifted to optional values (`None == None` is `True`). -/
def pyOptEqB : Option PyVal → Option PyVal → Bool
  | none, none => true
  | some a, some b => pyEq a b
  | _, _ => false

/-- The caller-supplied partition value as the Python value boto3 serializes
(`None` stays `None`). -/
def encodePartition : Option String → PyVal
  | none => .pynone
  | some s => .pystr s

/-- The key attribute of an item. -/
def itemId (it : Item) : Option PyVal := getAttr it "id"

/-- `get_item(Key={"id": id})`: the item whose `id` attribute equals `id`. -/
def getItem (t : Table) (id : String) : Option Item :=
  List.find? (fun it => pyOptEqB (itemId it) (some (.pystr id))) t

/-- `put_item(Item=entry)`: replace the item with the same key, else append. -/
def putItem (t : Table) (e : Item) : Table :=
  if List.any t (fun it => pyOptEqB (itemId it) (itemId e)) then
    List.map (fun it => if pyOptEqB (itemId it) (itemId e) then e else it) t
  else t ++ [e]

/-- `delete_item(Key={"id": id})`: drop the item with that key (no-op if absent). -/
def removeId (t : Table) (id : String) : Table :=
  List.filter (fun it => !(pyOptEqB (itemId it) (some (.pystr id)))) t

/-- Python `entry[k] = v` on an attribute map: overwrite in place or append. -/
def setAttr (it : Item) (k : String) (v : PyVal) : Item :=
  if List.any it (fun kv => kv.1 == k) then
    List.map (fun kv => if kv.1 == k then (k, v) else kv) it
  else it ++ [(k, v)]

/-- `from_decimals` applied to a stored item (a dict at top level). -/
def from_decimalsItem : Item → Item := fromDecD

/-- `to_decimals` applied to a dumped entity (a dict at top level). -/
def to_decimalsItem : Item → Except PyErr Item := toDecD

/-! ## The generic repository (`BaseRepository`, base.py)

Each public classmethod is embedded as a function of its arguments, the current
table, and the outcome of the underlying store call: `fault = some e` means the
store call raised `e` (a `ClientError` or any other exception), `fault = none`
means the store behaved.  The result is `Except PyErr` so that an exception
escaping the method's `try`/`except` structure is visible at the boundary. -/

/-- A repository schema: `name`, `modifiable` and `partition_key` class fields
(repository.py). -/
structure Schema where
  name : String
  modifiable : List String
  partition_key : Option String

/-- `Image` repository (repository.py:7-14). -/
def ImageSchema : Schema := ⟨"Image", ["mask", "grid"], some "product"⟩

/-- `Product` repository (repository.py:17-32). -/
def ProductSchema : Schema :=
  ⟨"Product", ["brand", "series", "model", "images", "category", "formats", "analysis"], none⟩

/-- `Report` repository (repository.py:35-48). -/
def ReportSchema : Schema := ⟨"Report", ["title", "reference", "favorites"], some "author"⟩

/-- `User` repository (repository.py:51-58). -/
def UserSchema : Schema := ⟨"User", ["name", "email", "avatar", "preferences"], none⟩

/-- `BaseRepository.create` (base.py:102-115).  `to_decimals` the dump (an
exception there is caught, returning `False`); overwrite the partition field
when both the partition key and the partition argument are truthy; `put_item`. -/
def createE (sch : Schema) (dump : Item) (partition : Option String)
    (fault : Option PyErr) (t : Table) : Except PyErr (Bool × Table) :=
  match to_decimalsItem dump with
  | .error _ => .ok (false, t)
  | .ok entry =>
    let entry :=
      match sch.partition_key, partition with
      | some pk, some p => if pk ≠ "" ∧ p ≠ "" then setAttr entry pk (.pystr p) else entry
      | _, _ => entry
    match fault with
    | some _ => .ok (false, t)
    | none => .ok (true, putItem t entry)

/-- `BaseRepository.read` (base.py:117-138).  Missing item is a `KeyError`
(caught, `None`); a truthy partition key with a stored value Python-`!=` the
caller's partition raises a conditional-check `ClientError` (caught and logged
as access denied, `None`); schema validation failure is caught (`None`). -/
def readE {T : Type} (sch : Schema) (parse : Item → Option T) (t : Table)
    (id : String) (partition : Option String) (fault : Option PyErr) :
    Except PyErr (Option T) :=
  match fault with
  | some _ => .ok none
  | none =>
    match getItem t id with
    | none => .ok none
    | some item =>
      match sch.partition_key with
      | some pk =>
        if pk ≠ "" ∧ !(pyOptEqB (getAttr item pk) ((partition).map .pystr)) then .ok none
        else .ok (parse (from_decimalsItem item))
      | none => .ok (parse (from_decimalsItem item))

/-- The DynamoDB condition `Attr(pk).eq(partition)` evaluated against the stored
item: false when the item (or the attribute) is absent. -/
def condEq (stored : Option PyVal) (partition : Option String) : Bool :=
  match stored with
  | none => false
  | some v => pyEq v (encodePartition partition)

/-- Apply `SET updated_at = now, k1 = v1, ...` to an item. -/
def applySets (it : Item) (sets : List (String × PyVal)) : Item :=
  List.foldl (fun a kv => setAttr a kv.1 kv.2) it sets

/-- `update_item` write effect: update the keyed item in place, or (without a
condition) upsert a fresh item carrying only the key and the SET attributes. -/
def updateApply (t : Table) (id : String) (sets : List (String × PyVal)) : Table :=
  match getItem t id with
  | some _ =>
    List.map
      (fun it => if pyOptEqB (itemId it) (some (.pystr id)) then applySets it sets else it) t
  | none => t ++ [applySets [("id", .pystr id)] sets]

/-- The delta of an update: the dump restricted to the schema's `modifiable`
fields. -/
def updateDelta (sch : Schema) (dump : Item) : Item :=
  List.filter (fun kv => sch.modifiable.contains kv.1) dump

/-- The SET list of the update expression: `updated_at` plus the delta. -/
def updateSets (sch : Schema) (dump : Item) (now : String) : List (String × PyVal) :=
  ("updated_at", .pystr now) :: updateDelta sch dump

/-- `BaseRepository.update` (base.py:140-177).  An empty delta is a warned
no-op returning `False` before any store call.  With a truthy partition key
the write is conditioned on `Attr(pk).eq(partition)`; a condition failure is a
caught `ClientError` (`False`).  `updated_at` is always stamped. -/
def updateE (sch : Schema) (id : String) (dump : Item) (partition : Option String)
    (now : String) (fault : Option PyErr) (t : Table) : Except PyErr (Bool × Table) :=
  if (updateDelta sch dump).isEmpty then .ok (false, t)
  else
    match fault with
    | some _ => .ok (false, t)
    | none =>
      match sch.partition_key with
      | some pk =>
        if pk = "" then .ok (true, updateApply t id (updateSets sch dump now))
        else
          match getItem t id with
          | none => .ok (false, t)
          | some item =>
            if condEq (getAttr item pk) partition then
              .ok (true, updateApply t id (updateSets sch dump now))
            else .ok (false, t)
      | none => .ok (true, updateApply t id (updateSets sch dump now))

/-- `BaseRepository.delete` (base.py:179-198).  Same partition conditioning as
update; without a partition key the delete is unconditional (and succeeds even
when the item is absent). -/
def deleteE (sch : Schema) (id : String) (partition : Option String)
    (fault : Option PyErr) (t : Table) : Except PyErr (Bool × Table) :=
  match fault with
  | some _ => .ok (false, t)
  | none =>
    match sch.partition_key with
    | some pk =>
      if pk = "" then .ok (true, removeId t id)
      else
        match getItem t id with
        | none => .ok (false, t)
        | some item =>
          if condEq (getAttr item pk) partition then .ok (true, removeId t id)
          else .ok (false, t)
    | none => .ok (true, removeId t id)

/-- Convert a list of dumps, stopping at the first exception (the order the
batch writer converts them in). -/
def mapExcept (f : Item → Except PyErr Item) : List Item → Except PyErr (List Item)
  | [] => .ok []
  | x :: xs =>
    match f x with
    | .error e => .error e
    | .ok y =>
      match mapExcept f xs with
      | .error e => .error e
      | .ok ys => .ok (y :: ys)

/-- `BaseRepository.create_batch` (base.py:204-222).  Each dump is converted and
partition-overridden exactly as in `create`, then written through the batch
writer; any exception is caught and reported as overall `False`. -/
def create_batchE (sch : Schema) (dumps : List Item) (partition : Option String)
    (fault : Option PyErr) (t : Table) : Except PyErr (Bool × Table) :=
  match fault with
  | some _ => .ok (false, t)
  | none =>
    match mapExcept to_decimalsItem dumps with
    | .error _ => .ok (false, t)
    | .ok entries =>
      let entries := List.map
        (fun e =>
          match sch.partition_key, partition with
          | some pk, some p => if pk ≠ "" ∧ p ≠ "" then setAttr e pk (.pystr p) else e
          | _, _ => e) entries
      .ok (true, List.foldl putItem t entries)

/-- `BaseRepository.delete_batch` (base.py:224-240).  The key is
`{"id": entity.id}`, to which the code adds the partition attribute whenever a
truthy partition key is declared.  The table's key schema is the simple key
`{id}` (fixed by the same class's `get_item`/`delete_item`, which use
`Key={"id": id}`), and the store rejects a key map carrying an attribute not in
the key schema with a `ValidationException` that fails the whole batch write -
so for a partitioned schema with any entity to delete, the caught exception
yields `False` with nothing deleted.  Only for a non-partitioned (or falsy)
partition key, or an empty entity list, does the batch delete succeed. -/
def delete_batchE (sch : Schema) (ids : List String) (_partition : Option String)
    (fault : Option PyErr) (t : Table) : Except PyErr (Bool × Table) :=
  match fault with
  | some _ => .ok (false, t)
  | none =>
    match sch.partition_key with
    | some pk =>
      if pk = "" then .ok (true, List.foldl removeId t ids)
      else if ids.isEmpty then .ok (true, t)
      else .ok (false, t)
    | none => .ok (true, List.foldl removeId t ids)

/-- The index sort key: items are served newest-first by `created_at`
(`ScanIndexForward=False` on the per-partition index). -/
def createdKey (it : Item) : String :=
  match getAttr it "created_at" with
  | some (.pystr s) => s
  | _ => ""

/-- Insert into a list kept in descending `created_at` order. -/
def insertByCreated (x : Item) : List Item → List Item
  | [] => [x]
  | y :: ys => if createdKey y < createdKey x then x :: y :: ys else y :: insertByCreated x ys

/-- The order in which the partition's index serves its items. -/
def sortByCreatedDesc (t : List Item) : List Item :=
  List.foldr insertByCreated [] t

/-- Python truthiness of an optional string (`if last_key:`). -/
def truthy : Option String → Bool
  | none => false
  | some s => !(s == "")

/-- Python `str(x)` for the values `list` applies it to: `str(None) = "None"`. -/
def pythonStr : Option PyVal → String
  | none => "None"
  | some (.pystr s) => s
  | some _ => "object"

/-- `BaseRepository.list` (base.py:246-281).  Raises `NotImplementedError` for a
falsy partition key; a store failure (or an item that fails schema validation)
is caught, logged, and then surfaced as a raised `ValueError`.  A truthy
`last_key` sets `ExclusiveStartKey={"id": last_key}` on the secondary-index
query; a start key lacking the index key attributes is rejected by the store
(`ValidationException`), so that call also ends in the raised `ValueError`.
Otherwise the page is the first `limit` matching items (newest first);
`LastEvaluatedKey` is present whenever the scan was cut by `limit`, and the
returned cursor is `str(response.get("LastEvaluatedKey", {}).get("id"))` - the
string `"None"` when the key is absent. -/
def listE {T : Type} (sch : Schema) (parse : Item → Option T) (t : Table)
    (partition : String) (limit : Nat) (last_key : Option String)
    (fault : Option PyErr) : Except PyErr (List T × Option String) :=
  match sch.partition_key with
  | none => .error (.notImplemented "list() not supported")
  | some pk =>
    if pk = "" then .error (.notImplemented "list() not supported")
    else
      match fault with
      | some _ => .error (.valueError "Failed to list")
      | none =>
        if truthy last_key then .error (.valueError "Failed to list")
        else
          let matching := sortByCreatedDesc
            (List.filter (fun it => pyOptEqB (getAttr it pk) (some (.pystr partition))) t)
          let page := List.take limit matching
          match List.mapM parse (List.map from_decimalsItem page) with
          | none => .error (.valueError "Failed to list")
          | some entities =>
            let lek : Option Item :=
              if 0 < limit ∧ limit ≤ matching.length then page.getLast? else none
            .ok (entities, some (pythonStr (lek.bind (fun it => getAttr it "id"))))

/-- `BaseRepository.count` (base.py:283-302).  Raises `NotImplementedError` for
a falsy partition key; a store failure is caught, logged, then surfaced as a
raised `ValueError`; otherwise the number of items in the partition. -/
def countE (sch : Schema) (t : Table) (partition : String) (fault : Option PyErr) :
    Except PyErr Nat :=
  match sch.partition_key with
  | none => .error (.notImplemented "count() not supported")
  | some pk =>
    if pk = "" then .error (.notImplemented "count() not supported")
    else
      match fault with
      | some _ => .error (.valueError "Failed to count")
      | none =>
        .ok (List.filter (fun it => pyOptEqB (getAttr it pk) (some (.pystr partition))) t).length


/-! ## Entity models (src/api/src/shared/models/)

`generate_id` (a fresh uuid4 per constructed entity) is modelled by an id
supply `gen : Nat → String` consumed left to right in construction order, and
`current_timestamp` by an explicit `now` argument.  The request-side and
db-side `Affine`, `Category`, `Format` and `Vendor` classes have identical
fields and their `to_db` methods copy them field by field, so one Lean
structure stands for each pair.  A Python float field is modelled by the
mantissa/scale pair of its decimal value (as in `PyVal.pyfloat`). -/

/-- `Image.Affine` (request.py:11-21, database.py:12-15): three str-to-float
mappings. -/
structure Affine where
  shape : List (String × Int × Nat)
  position : List (String × Int × Nat)
  rotation : List (String × Int × Nat)

/-- `Quantity` (models/base.py:19-23): `val` (float) and `unit`. -/
structure Quantity where
  val : Int × Nat
  unit : String

/-- `Product.Category` (request.py:39-55, database.py:31-47). -/
structure Category where
  type : Option String := none
  material : Option String := none
  look : Option String := none
  texture : Option String := none
  finish : Option String := none
  edge : Option String := none

/-- `Product.Format.Vendor` (request.py:58-74, database.py:50-66). -/
structure Vendor where
  sku : String
  store : String
  name : String
  price : Option Quantity := none
  discontinued : Option Bool := none
  url : String

/-- `Product.Format` (request.py:57-91, database.py:49-83). -/
structure Format where
  length : Option Quantity := none
  width : Option Quantity := none
  thickness : Option Quantity := none
  vendors : Option (List Vendor) := none

/-- `database.Image` (database.py:9-25). -/
structure DbImage where
  id : String
  image : String
  mask : Option String := none
  grid : Option Affine := none
  product : String
  created_at : String
  updated_at : Option String := none

/-- `database.Product` (database.py:28-94). -/
structure DbProduct where
  id : String
  brand : Option String := none
  series : Option String := none
  model : String := ""
  images : Option (List String) := none
  category : Option Category := none
  formats : Option (List Format) := none
  created_at : String
  updated_at : Option String := none

/-- `database.Report` (database.py:122-130). -/
structure DbReport where
  id : String
  title : String := ""
  author : String
  reference : String := ""
  favorites : Option (List String) := none
  created_at : String
  updated_at : Option String := none

/-- `request.Image` (request.py:8-33). -/
structure ReqImage where
  image : String
  mask : Option String := none
  grid : Option Affine := none

/-- `request.Product` (request.py:36-121). -/
structure ReqProduct where
  brand : Option String := none
  series : Option String := none
  model : String
  images : Option (List ReqImage) := none
  category : Option Category := none
  formats : Option (List Format) := none

/-- `request.Report` (request.py:124-145). -/
structure ReqReport where
  title : String
  reference : ReqProduct
  favorites : Option (List String) := none

/-- `request.Image.to_db` (request.py:27-33): a fresh db Image carrying the
given product id; `id` and `created_at` come from the default factories. -/
def imageToDb (i : ReqImage) (newId : String) (now : String) (product : String) : DbImage :=
  { id := newId, image := i.image, mask := i.mask, grid := i.grid
    product := product, created_at := now }

/-- `request.Product.to_db` (request.py:100-121).  Builds the db Images first
(each initially with `product=""`), then the db Product whose `images` field is
`[img.image for img in self.images]` - the request images' blob references -
then reassigns every db Image's `product` to the new Product's id.  Iterating
`self.images` when it is `None` is a `TypeError`. -/
def productToDb (p : ReqProduct) (gen : Nat → String) (now : String) :
    Except PyErr (DbProduct × List DbImage) :=
  match p.images with
  | none => .error (.typeError "NoneType is not iterable")
  | some imgs =>
    let dbImages := List.map (fun x => imageToDb x.2 (gen x.1) now "") imgs.enum
    let pid := gen imgs.length
    let prod : DbProduct :=
      { id := pid, brand := p.brand, series := p.series, model := p.model
        images := some (List.map (fun i => i.image) imgs)
        category := some (p.category.getD {})
        formats := some (p.formats.getD [{ vendors := some [] }])
        created_at := now }
    .ok (prod, List.map (fun i => { i with product := pid }) dbImages)

/-- `request.Report.to_db` (request.py:131-145): build the reference Product
and its Images, then a db Report referencing the Product's id, owned by
`author`. -/
def reportToDb (r : ReqReport) (author : String) (gen : Nat → String) (now : String) :
    Except PyErr (DbReport × DbProduct × List DbImage) :=
  match productToDb r.reference gen now with
  | .error e => .error e
  | .ok (reference, images) =>
    .ok ({ id := gen (images.length + 1), title := r.title, author := author
           reference := reference.id, favorites := r.favorites, created_at := now },
         reference, images)

/-! ### `model_dump(exclude_none=True)` of the db entities

pydantic dumps fields in declaration order, drops `None` fields recursively,
and keeps non-`None` defaults (such as an empty vendor list). -/

/-- An optional field of a dump: present only when set. -/
def optField (k : String) (v : Option PyVal) : Item :=
  match v with
  | some x => [(k, x)]
  | none => []

/-- Dump of a str-to-float mapping. -/
def dumpFloatMap (l : List (String × Int × Nat)) : PyVal :=
  .pydict (List.map (fun kv => (kv.1, .pyfloat kv.2.1 kv.2.2)) l)

/-- Dump of an `Affine`. -/
def dumpAffine (a : Affine) : PyVal :=
  .pydict [("shape", dumpFloatMap a.shape), ("position", dumpFloatMap a.position),
           ("rotation", dumpFloatMap a.rotation)]

/-- Dump of a `Quantity`. -/
def dumpQuantity (q : Quantity) : PyVal :=
  .pydict [("val", .pyfloat q.val.1 q.val.2), ("unit", .pystr q.unit)]

/-- Dump of a `Vendor`. -/
def dumpVendor (v : Vendor) : PyVal :=
  .pydict ([("sku", .pystr v.sku), ("store", .pystr v.store), ("name", .pystr v.name)]
    ++ optField "price" (v.price.map dumpQuantity)
    ++ optField "discontinued" (v.discontinued.map .pybool)
    ++ [("url", .pystr v.url)])

/-- Dump of a `Format`. -/
def dumpFormat (f : Format) : PyVal :=
  .pydict (optField "length" (f.length.map dumpQuantity)
    ++ optField "width" (f.width.map dumpQuantity)
    ++ optField "thickness" (f.thickness.map dumpQuantity)
    ++ optField "vendors" (f.vendors.map (fun vs => .pylist (List.map dumpVendor vs))))

/-- Dump of a `Category`. -/
def dumpCategory (c : Category) : PyVal :=
  .pydict (optField "type" (c.type.map .pystr)
    ++ optField "material" (c.material.map .pystr)
    ++ optField "look" (c.look.map .pystr)
    ++ optField "texture" (c.texture.map .pystr)
    ++ optField "finish" (c.finish.map .pystr)
    ++ optField "edge" (c.edge.map .pystr))

/-- `model_dump(exclude_none=True)` of a db Image. -/
def dumpImage (i : DbImage) : Item :=
  [("id", .pystr i.id), ("image", .pystr i.image)]
    ++ optField "mask" (i.mask.map .pystr)
    ++ optField "grid" (i.grid.map dumpAffine)
    ++ [("product", .pystr i.product), ("created_at", .pystr i.created_at)]
    ++ optField "updated_at" (i.updated_at.map .pystr)

/-- `model_dump(exclude_none=True)` of a db Product. -/
def dumpProduct (p : DbProduct) : Item :=
  [("id", .pystr p.id)]
    ++ optField "brand" (p.brand.map .pystr)
    ++ optField "series" (p.series.map .pystr)
    ++ [("model", .pystr p.model)]
    ++ optField "images" (p.images.map (fun l => .pylist (List.map .pystr l)))
    ++ optField "category" (p.category.map dumpCategory)
    ++ optField "formats" (p.formats.map (fun fs => .pylist (List.map dumpFormat fs)))
    ++ [("created_at", .pystr p.created_at)]
    ++ optField "updated_at" (p.updated_at.map .pystr)

/-- `model_dump(exclude_none=True)` of a db Report. -/
def dumpReport (r : DbReport) : Item :=
  [("id", .pystr r.id), ("title", .pystr r.title), ("author", .pystr r.author),
   ("reference", .pystr r.reference)]
    ++ optField "favorites" (r.favorites.map (fun l => .pylist (List.map .pystr l)))
    ++ [("created_at", .pystr r.created_at)]
    ++ optField "updated_at" (r.updated_at.map .pystr)

/-- The field names `database.Report` accepts (`extra="forbid"`). -/
def reportFields : List String :=
  ["id", "title", "author", "reference", "favorites", "created_at", "updated_at"]

/-- `database.Report(**item)`: pydantic validation of a stored item.  Unknown
keys are rejected; `author` is the required string; `title` and `reference`
default to `""`; `favorites`, when present, must be a non-empty list of
strings.  (The `id`/`created_at` default factories would mint fresh values;
stored items always carry both, modelled here as required.) -/
def parseReport (it : Item) : Option DbReport :=
  if !(List.all it (fun kv => reportFields.contains kv.1)) then none
  else
    match getAttr it "id", getAttr it "author", getAttr it "created_at" with
    | some (.pystr i), some (.pystr a), some (.pystr c) =>
      let title :=
        match getAttr it "title" with
        | some (.pystr s) => some s
        | none => some ""
        | _ => none
      let reference :=
        match getAttr it "reference" with
        | some (.pystr s) => some s
        | none => some ""
        | _ => none
      let favorites : Option (Option (List String)) :=
        match getAttr it "favorites" with
        | some (.pylist vs) =>
          if vs.isEmpty then none
          else
            (List.mapM (fun v => match v with | PyVal.pystr s => some s | _ => none) vs).map
              some
        | none => some none
        | _ => none
      let updated : Option (Option String) :=
        match getAttr it "updated_at" with
        | some (.pystr s) => some (some s)
        | none => some none
        | _ => none
      match title, reference, favorites, updated with
      | some ti, some re, some fa, some up =>
        some { id := i, title := ti, author := a, reference := re, favorites := fa
               created_at := c, updated_at := up }
      | _, _, _, _ => none
    | _, _, _ => none

/-- `Report.update_favorites` (repository.py:44-48): build a Report carrying
`id`, `author := partition` and the favorites (pydantic rejects an empty
list, `min_length=1`, and that `ValidationError` is not caught here), then
call `cls.update(report)` - with no partition argument. -/
def update_favoritesE (id partition : String) (favorites : List String)
    (ctorNow now : String) (fault : Option PyErr) (t : Table) :
    Except PyErr (Bool × Table) :=
  if favorites.isEmpty then .error (.validation "favorites: list too short")
  else
    updateE ReportSchema id
      (dumpReport { id := id, author := partition, favorites := some favorites
                    created_at := ctorNow })
      none now fault t

/-! ## The report-creation saga -/

/-- The three tables the saga touches. -/
structure Stores where
  images : Table
  products : Table
  reports : Table

/-- Terminal state of a saga run. -/
inductive SagaResult where
  | success : SagaResult
  | abortedImages : SagaResult
  | abortedProduct : SagaResult
  | abortedReport : SagaResult
deriving Repr

/-- Modelled from the spec: the report-creation saga orchestration (spec 4.3)
is not present under src/ - the handler `create_report`
(src/api/src/handlers/reports.py) predates the partitioned repository and never
creates Images or Products; only the saga's declared building blocks exist
(`Report.to_db`, `create_batch`, `create`, `delete`, `delete_batch`).  Steps,
per the spec: build Images, Product and Report via `Report.to_db`;
`createBatch(images, partition=product.id)`, aborting on failure with nothing
persisted; `create(product)`, on failure compensating by
`deleteBatch(images, product.id)` then aborting; `create(report,
partition=author)`, on failure compensating by `delete(product.id)` then
`deleteBatch(images, product.id)` then aborting.  The repository operations
themselves are the embeddings of the source, with a fault slot per store call. -/
def createReportSaga (req : ReqReport) (author : String) (gen : Nat → String)
    (now : String) (imgFault prodFault repFault : Option PyErr) (s : Stores) :
    Except PyErr (SagaResult × Stores) :=
  match reportToDb req author gen now with
  | .error e => .error e
  | .ok (report, product, images) =>
    match create_batchE ImageSchema (List.map dumpImage images) (some product.id)
        imgFault s.images with
    | .error e => .error e
    | .ok (ok1, imgT) =>
      if !ok1 then .ok (.abortedImages, { s with images := imgT })
      else
        match createE ProductSchema (dumpProduct product) none prodFault s.products with
        | .error e => .error e
        | .ok (ok2, prodT) =>
          if !ok2 then
            match delete_batchE ImageSchema (List.map (fun i => i.id) images)
                (some product.id) none imgT with
            | .error e => .error e
            | .ok (_, imgT2) => .ok (.abortedProduct, ⟨imgT2, prodT, s.reports⟩)
          else
            match createE ReportSchema (dumpReport report) (some author) repFault
                s.reports with
            | .error e => .error e
            | .ok (ok3, repT) =>
              if !ok3 then
                match deleteE ProductSchema product.id none none prodT with
                | .error e => .error e
                | .ok (_, prodT2) =>
                  match delete_batchE ImageSchema (List.map (fun i => i.id) images)
                      (some product.id) none imgT with
                  | .error e => .error e
                  | .ok (_, imgT2) => .ok (.abortedReport, ⟨imgT2, prodT2, repT⟩)
              else .ok (.success, ⟨imgT, prodT, repT⟩)

/-! ## Small facts about Python equality -/

theorem pyEq_str_str (a b : String) : pyEq (.pystr a) (.pystr b) = (a == b) := rfl

theorem pyEq_str_none (a : String) : pyEq (.pystr a) .pynone = false := rfl

theorem pyEq_str_self (a : String) : pyEq (.pystr a) (.pystr a) = true := by
  rw [pyEq_str_str]; exact beq_self_eq_true a

/-! ## The repository never lets an exception escape its single-item and batch
methods (their bodies catch everything) -/

theorem createE_isOk (sch : Schema) (dump : Item) (p : Option String)
    (f : Option PyErr) (t : Table) : exceptOk (createE sch dump p f t) = true := by
  unfold createE
  repeat' split
  all_goals rfl

theorem readE_isOk {T : Type} (sch : Schema) (parse : Item → Option T) (t : Table)
    (id : String) (p : Option String) (f : Option PyErr) :
    exceptOk (readE sch parse t id p f) = true := by
  unfold readE
  repeat' split
  all_goals rfl

theorem updateE_isOk (sch : Schema) (id : String) (dump : Item) (p : Option String)
    (now : String) (f : Option PyErr) (t : Table) :
    exceptOk (updateE sch id dump p now f t) = true := by
  unfold updateE
  repeat' split
  all_goals rfl

theorem deleteE_isOk (sch : Schema) (id : String) (p : Option String)
    (f : Option PyErr) (t : Table) : exceptOk (deleteE sch id p f t) = true := by
  unfold deleteE
  repeat' split
  all_goals rfl

theorem create_batchE_isOk (sch : Schema) (dumps : List Item) (p : Option String)
    (f : Option PyErr) (t : Table) : exceptOk (create_batchE sch dumps p f t) = true := by
  unfold create_batchE
  repeat' split
  all_goals rfl

theorem delete_batchE_isOk (sch : Schema) (ids : List String) (p : Option String)
    (f : Option PyErr) (t : Table) : exceptOk (delete_batchE sch ids p f t) = true := by
  unfold delete_batchE
  repeat' split
  all_goals rfl

/-! ## Partition-argument independence for non-partitioned schemas -/

theorem readE_pk_none {T : Type} (sch : Schema) (parse : Item → Option T) (t : Table)
    (id : String) (p q : Option String) (fault : Option PyErr)
    (h : sch.partition_key = none) :
    readE sch parse t id p fault = readE sch parse t id q fault := by
  unfold readE
  cases fault with
  | some e => rfl
  | none =>
    cases hgi : getItem t id with
    | none => rfl
    | some item => rw [h]

theorem updateE_pk_none (sch : Schema) (id : String) (dump : Item) (p q : Option String)
    (now : String) (fault : Option PyErr) (t : Table) (h : sch.partition_key = none) :
    updateE sch id dump p now fault t = updateE sch id dump q now fault t := by
  unfold updateE
  split
  · rfl
  · cases fault with
    | some e => rfl
    | none => rw [h]

theorem deleteE_pk_none (sch : Schema) (id : String) (p q : Option String)
    (fault : Option PyErr) (t : Table) (h : sch.partition_key = none) :
    deleteE sch id p fault t = deleteE sch id q fault t := by
  unfold deleteE
  cases fault with
  | some e => rfl
  | none => rw [h]

/-! ## Claims -/

/-- C10: for schemas that declare no partition key (`User`, `Product`), the
results of `read`, `update` and `delete` are independent of the partition
argument: for every id and any two partition values `p` and `q` the calls
agree, so the partition argument confers no access restriction for these
kinds. -/
theorem c10_no_partition_key_ignores_partition {T U : Type}
    (parseU : Item → Option T) (parseP : Item → Option U) (t : Table) (id : String)
    (p q : Option String) (fault : Option PyErr) (dump : Item) (now : String) :
    (readE UserSchema parseU t id p fault = readE UserSchema parseU t id q fault) ∧
    (updateE UserSchema id dump p now fault t = updateE UserSchema id dump q now fault t) ∧
    (deleteE UserSchema id p fault t = deleteE UserSchema id q fault t) ∧
    (readE ProductSchema parseP t id p fault = readE ProductSchema parseP t id q fault) ∧
    (updateE ProductSchema id dump p now fault t
      = updateE ProductSchema id dump q now fault t) ∧
    (deleteE ProductSchema id p fault t = deleteE ProductSchema id q fault t) :=
  ⟨readE_pk_none _ _ _ _ _ _ _ rfl, updateE_pk_none _ _ _ _ _ _ _ _ rfl,
   deleteE_pk_none _ _ _ _ _ _ rfl, readE_pk_none _ _ _ _ _ _ _ rfl,
   updateE_pk_none _ _ _ _ _ _ _ _ rfl, deleteE_pk_none _ _ _ _ _ _ rfl⟩

/-- C8: the claim says `toStorage` maps every non-numeric leaf - strings,
booleans and null - to itself with no conversion and no error.  Strings and
null do pass through, but a Python `bool` is an `int` to `isinstance`, so
`to_decimals` evaluates `Decimal(str(True))`, which raises `InvalidOperation`
instead of passing the boolean through. -/
theorem c8_bool_leaf_is_not_passed_through :
    to_decimals (.pystr "a") = .ok (.pystr "a") ∧
    to_decimals .pynone = .ok .pynone ∧
    to_decimals (.pybool true) = .error .invalidOperation ∧
    to_decimals (.pybool false) = .error .invalidOperation ∧
    to_decimals (.pydict [("flag", .pybool true)]) = .error .invalidOperation :=
  ⟨rfl, rfl, rfl, rfl, rfl⟩

/-- C3: the claim says `fromStorage(toStorage(x)) == x` for every value built
from the allowed leaf types, booleans included.  At `x = True` (and at any
value nesting a boolean, such as a vendor's `discontinued` field)
`to_decimals` raises `InvalidOperation`, so the round trip crashes rather
than returning `x`. -/
theorem c3_roundtrip_crashes_on_booleans :
    Except.map from_decimals (to_decimals (.pybool true)) = .error .invalidOperation ∧
    Except.map from_decimals (to_decimals (.pylist [.pyint 1, .pybool true]))
      = .error .invalidOperation ∧
    Except.map from_decimals (to_decimals (.pydict [("discontinued", .pybool true)]))
      = .error .invalidOperation :=
  ⟨rfl, rfl, rfl⟩

/-- C6 counterexample: the claim says no public repository method - `count`
and `list` included - raises for store failures, converting them to a failure
sentinel instead.  A store failure inside `count` or `list` is caught, logged,
and then `raise ValueError(...)` escapes to the caller. -/
theorem c6_count_and_list_raise_on_store_failure :
    countE ReportSchema [] "alice" (some (.clientError "InternalServerError"))
      = .error (.valueError "Failed to count") ∧
    listE ReportSchema parseReport [] "alice" 20 none
      (some (.clientError "InternalServerError"))
      = .error (.valueError "Failed to list") ∧
    exceptOk (countE ReportSchema [] "alice" (some (.clientError "InternalServerError")))
      = false :=
  ⟨rfl, rfl, rfl⟩

/-- C6 amended: the six single-item and batch methods (`create`, `read`,
`update`, `delete`, `create_batch`, `delete_batch`) never raise across their
boundary - every expected condition and every store failure becomes the
method's failure sentinel - but `list` and `count` do raise: `ValueError`
after a store failure and `NotImplementedError` on a schema with no partition
key. -/
theorem c6_amended_single_item_methods_never_raise {T : Type} (sch : Schema)
    (parse : Item → Option T) (dump : Item) (dumps : List Item) (ids : List String)
    (p : Option String) (f : Option PyErr) (t : Table) (id now : String) :
    exceptOk (createE sch dump p f t) = true ∧
    exceptOk (readE sch parse t id p f) = true ∧
    exceptOk (updateE sch id dump p now f t) = true ∧
    exceptOk (deleteE sch id p f t) = true ∧
    exceptOk (create_batchE sch dumps p f t) = true ∧
    exceptOk (delete_batchE sch ids p f t) = true :=
  ⟨createE_isOk sch dump p f t, readE_isOk sch parse t id p f,
   updateE_isOk sch id dump p now f t, deleteE_isOk sch id p f t,
   create_batchE_isOk sch dumps p f t, delete_batchE_isOk sch ids p f t⟩

/-- C7: an update whose entity has no set field in the schema's `modifiable`
set returns `false` and issues no write: the table (every stored item,
`updated_at` included) is exactly what it was. -/
theorem c7_empty_delta_update_is_noop (sch : Schema) (id : String) (dump : Item)
    (partition : Option String) (now : String) (fault : Option PyErr) (t : Table)
    (h : updateDelta sch dump = []) :
    updateE sch id dump partition now fault t = .ok (false, t) := by
  unfold updateE
  rw [h]
  rfl

theorem c7_empty_delta_update_is_noop_witness :
    updateDelta ReportSchema
        [("id", .pystr "r1"), ("author", .pystr "alice"),
         ("created_at", .pystr "2024-01-01")] = [] ∧
    updateE ReportSchema "r1"
        [("id", .pystr "r1"), ("author", .pystr "alice"),
         ("created_at", .pystr "2024-01-01")]
        (some "alice") "2024-02-02" none
        [[("id", .pystr "r1"), ("author", .pystr "alice")]]
      = .ok (false, [[("id", .pystr "r1"), ("author", .pystr "alice")]]) :=
  ⟨rfl,
   c7_empty_delta_update_is_noop ReportSchema "r1"
     [("id", .pystr "r1"), ("author", .pystr "alice"),
      ("created_at", .pystr "2024-01-01")]
     (some "alice") "2024-02-02" none
     [[("id", .pystr "r1"), ("author", .pystr "alice")]] rfl⟩

/-- C2: for an entity stored in a partitioned schema with partition value `A`,
`read(id, partition = B)` with `B` different from `A` returns the not-found
sentinel `None` and never the entity's data, exactly as when the id is absent
from the table. -/
theorem c2_partition_mismatch_reads_none {T : Type} (sch : Schema) (pk : String)
    (parse : Item → Option T) (t : Table) (id idAbsent : String) (item : Item)
    (A B : String) (fault : Option PyErr)
    (hpk : sch.partition_key = some pk) (hpkne : pk ≠ "")
    (hit : getItem t id = some item)
    (hstored : getAttr item pk = some (.pystr A))
    (hne : B ≠ A)
    (habsent : getItem t idAbsent = none) :
    readE sch parse t id (some B) fault = .ok none ∧
    readE sch parse t idAbsent (some B) fault = .ok none := by
  have hAB : (A == B) = false := beq_eq_false_iff_ne.mpr (fun hab => hne hab.symm)
  constructor
  · cases fault with
    | some e => rfl
    | none =>
      unfold readE
      simp only [hit, hpk]
      rw [hstored]
      simp [pyOptEqB, pyEq_str_str, hAB, hpkne]
  · cases fault with
    | some e => rfl
    | none =>
      unfold readE
      rw [habsent]

theorem c2_partition_mismatch_reads_none_witness :
    readE ReportSchema parseReport
        [[("id", .pystr "r1"), ("author", .pystr "alice"),
          ("created_at", .pystr "2024-01-01")]]
        "r1" (some "bob") none = .ok none ∧
    readE ReportSchema parseReport
        [[("id", .pystr "r1"), ("author", .pystr "alice"),
          ("created_at", .pystr "2024-01-01")]]
        "zzz" (some "bob") none = .ok none :=
  c2_partition_mismatch_reads_none ReportSchema "author" parseReport
    [[("id", .pystr "r1"), ("author", .pystr "alice"),
      ("created_at", .pystr "2024-01-01")]]
    "r1" "zzz"
    [("id", .pystr "r1"), ("author", .pystr "alice"),
     ("created_at", .pystr "2024-01-01")]
    "alice" "bob" none rfl (by decide) rfl rfl (by decide) rfl

/-- A conditioned update whose condition evaluates false against the stored
item returns `false` and leaves the table untouched (the no-op delta path
returns the same). -/
theorem updateE_cond_false (sch : Schema) (pk : String) (id : String) (dump : Item)
    (p : Option String) (now : String) (fault : Option PyErr) (t : Table) (item : Item)
    (hpk : sch.partition_key = some pk) (hpkne : pk ≠ "")
    (hit : getItem t id = some item)
    (hcond : condEq (getAttr item pk) p = false) :
    updateE sch id dump p now fault t = .ok (false, t) := by
  unfold updateE
  split
  · rfl
  · cases fault with
    | some e => rfl
    | none =>
      simp only [hpk, hit]
      rw [if_neg hpkne]
      simp [hcond]

/-- C4: the claim says `Report.update_favorites(id, P, favorites)` with the
correct partition value `P` performs the conditioned write and returns true.
In the code, `update_favorites` builds the entity but calls `cls.update(report)`
without forwarding the partition, so the write is conditioned on
`Attr("author").eq(None)`: against any stored report whose author is a string
- including the caller's own `P` - the condition fails and the call returns
`false`, never updating the favorites. -/
theorem c4_update_favorites_denies_correct_partition (t : Table) (id : String)
    (item : Item) (P : String) (favs : List String) (ctorNow now : String)
    (fault : Option PyErr)
    (hfavs : favs ≠ [])
    (hit : getItem t id = some item)
    (hauthor : getAttr item "author" = some (.pystr P)) :
    update_favoritesE id P favs ctorNow now fault t = .ok (false, t) := by
  cases favs with
  | nil => exact absurd rfl hfavs
  | cons f fs =>
    unfold update_favoritesE
    rw [if_neg (by simp)]
    refine updateE_cond_false ReportSchema "author" id _ none now fault t item rfl
      (by decide) hit ?_
    rw [hauthor]
    rfl

theorem c4_update_favorites_denies_correct_partition_witness :
    update_favoritesE "r1" "alice" ["p1"] "2024-01-01" "2024-02-02" none
        [[("id", .pystr "r1"), ("author", .pystr "alice"),
          ("title", .pystr "T"), ("created_at", .pystr "2024-01-01")]]
      = .ok (false,
        [[("id", .pystr "r1"), ("author", .pystr "alice"),
          ("title", .pystr "T"), ("created_at", .pystr "2024-01-01")]]) :=
  c4_update_favorites_denies_correct_partition
    [[("id", .pystr "r1"), ("author", .pystr "alice"),
      ("title", .pystr "T"), ("created_at", .pystr "2024-01-01")]]
    "r1"
    [("id", .pystr "r1"), ("author", .pystr "alice"),
     ("title", .pystr "T"), ("created_at", .pystr "2024-01-01")]
    "alice" ["p1"] "2024-01-01" "2024-02-02" none (by decide) rfl rfl

/-- C5: the claim says that on the final page the returned cursor is null and
that a null cursor - not any other sentinel - signals no further pages.  The
code computes `str(response.get("LastEvaluatedKey", {}).get("id"))`, so on an
exhausted page (here: one stored report, `limit = 20`) the caller receives the
string `"None"`, never a null cursor. -/
theorem c5_final_page_cursor_is_the_string_None :
    listE ReportSchema parseReport
        [[("id", .pystr "r1"), ("title", .pystr "T"), ("author", .pystr "alice"),
          ("reference", .pystr "p1"), ("created_at", .pystr "2024-01-01")]]
        "alice" 20 none none
      = .ok ([{ id := "r1", title := "T", author := "alice", reference := "p1",
                favorites := none, created_at := "2024-01-01", updated_at := none }],
             some "None") ∧
    (some "None" : Option String) ≠ none :=
  ⟨rfl, by simp⟩

/-- C9: the claim says the built Product's `images` field lists exactly the ids
of the Image entities whose `product` field equals the Product's id.  In
`Product.to_db` the `images` field is `[img.image for img in self.images]` -
the request images' blob references - while the created Image entities carry
freshly generated ids, so the Product lists no Image id at all (`to_api` in
database.py:100 nevertheless reads those entries as Image ids). -/
theorem c9_product_images_hold_blob_refs_not_image_ids :
    ∃ prod imgs,
      productToDb { model := "Subway White", images := some [{ image := "img1.png" }] }
          (fun n => "uid" ++ toString n) "T0" = .ok (prod, imgs) ∧
      prod.images = some ["img1.png"] ∧
      List.map (fun i => i.id) imgs = ["uid0"] ∧
      List.map (fun i => i.product) imgs = [prod.id] ∧
      prod.images ≠ some (List.map (fun i => i.id) imgs) := by
  refine ⟨{ id := "uid1", model := "Subway White", images := some ["img1.png"],
            category := some {}, formats := some [{ vendors := some [] }],
            created_at := "T0" },
          [{ id := "uid0", image := "img1.png", product := "uid1",
             created_at := "T0" }], rfl, rfl, rfl, rfl, ?_⟩
  simp

/-! ## Saga rollback: supporting lemmas -/

/-- The decimal-converted form of a float mapping. -/
def decFloatMap (l : List (String × Int × Nat)) : PyVal :=
  .pydict (List.map (fun kv => (kv.1, PyVal.pydec kv.2.1 kv.2.2)) l)

/-- The decimal-converted form of an Affine dump. -/
def decAffine (a : Affine) : PyVal :=
  .pydict [("shape", decFloatMap a.shape), ("position", decFloatMap a.position),
           ("rotation", decFloatMap a.rotation)]

/-- The decimal-converted form of an image dump: strings unchanged, the grid's
floats turned into decimals. -/
def decImageDump (i : DbImage) : Item :=
  [("id", .pystr i.id), ("image", .pystr i.image)]
    ++ optField "mask" (i.mask.map .pystr)
    ++ optField "grid" (i.grid.map decAffine)
    ++ [("product", .pystr i.product), ("created_at", .pystr i.created_at)]
    ++ optField "updated_at" (i.updated_at.map .pystr)

theorem toDecD_floatMap (l : List (String × Int × Nat)) :
    toDecD (List.map (fun kv => (kv.1, PyVal.pyfloat kv.2.1 kv.2.2)) l)
      = .ok (List.map (fun kv => (kv.1, PyVal.pydec kv.2.1 kv.2.2)) l) := by
  induction l with
  | nil => rfl
  | cons kv rest ih => simp [toDecD, to_decimals, ih]

theorem to_decimals_dumpAffine (a : Affine) :
    to_decimals (dumpAffine a) = .ok (decAffine a) := by
  simp [dumpAffine, decAffine, to_decimals, toDecD, dumpFloatMap, decFloatMap,
        toDecD_floatMap]

theorem to_decimals_str (s : String) : to_decimals (.pystr s) = .ok (.pystr s) := rfl

theorem to_decimalsItem_dumpImage (i : DbImage) :
    to_decimalsItem (dumpImage i) = .ok (decImageDump i) := by
  cases hm : i.mask <;> cases hg : i.grid <;> cases hu : i.updated_at <;>
    simp [to_decimalsItem, dumpImage, decImageDump, optField, hm, hg, hu, toDecD,
          to_decimals_str, to_decimals_dumpAffine]

theorem mapExcept_dumpImage (images : List DbImage) :
    mapExcept to_decimalsItem (List.map dumpImage images)
      = .ok (List.map decImageDump images) := by
  induction images with
  | nil => rfl
  | cons i rest ih =>
    simp [mapExcept, to_decimalsItem_dumpImage, ih]

theorem getAttr_cons (a : String × PyVal) (l : Item) (k : String) :
    getAttr (a :: l) k = if a.1 == k then some a.2 else getAttr l k := by
  by_cases h : a.1 == k <;> simp [getAttr, List.find?_cons, h]

theorem getAttr_map_overwrite (it : Item) (k k2 : String) (v : PyVal)
    (hk : (k == k2) = false) :
    getAttr (List.map (fun kv => if kv.1 == k then (k, v) else kv) it) k2
      = getAttr it k2 := by
  induction it with
  | nil => rfl
  | cons a rest ih =>
    by_cases h1 : a.1 == k
    · have ha : a.1 = k := eq_of_beq h1
      simp only [List.map_cons, if_pos h1, getAttr_cons, hk, ha]
      simpa [getAttr_cons, ha, hk] using ih
    · simp only [List.map_cons, if_neg h1, getAttr_cons]
      by_cases h2 : a.1 == k2
      · simp [h2]
      · simpa [h2] using ih

theorem getAttr_setAttr_ne (it : Item) (k k2 : String) (v : PyVal)
    (h : (k2 == k) = false) : getAttr (setAttr it k v) k2 = getAttr it k2 := by
  have hk : (k == k2) = false := by
    refine beq_eq_false_iff_ne.mpr fun he => ?_
    rw [he] at h
    simp at h
  unfold setAttr
  split
  · exact getAttr_map_overwrite it k k2 v hk
  · rw [getAttr]
    rw [List.find?_append]
    have : List.find? (fun kv => kv.1 == k2) [(k, v)] = none := by
      simp [List.find?_cons, hk]
    cases hfind : List.find? (fun kv => kv.1 == k2) it with
    | none => simp [Option.orElse, hfind, this, getAttr, hk]
    | some kv => simp [Option.orElse, hfind, getAttr]

theorem itemId_decImageDump (i : DbImage) :
    itemId (decImageDump i) = some (.pystr i.id) := rfl

theorem itemId_setAttr_product (i : DbImage) (pid : String) :
    itemId (setAttr (decImageDump i) "product" (.pystr pid)) = some (.pystr i.id) := by
  rw [itemId,
      getAttr_setAttr_ne (decImageDump i) "product" "id" (.pystr pid) (by decide)]
  exact itemId_decImageDump i

theorem putItem_fresh (t : Table) (e : Item)
    (h : List.any t (fun it => pyOptEqB (itemId it) (itemId e)) = false) :
    putItem t e = t ++ [e] := by
  simp [putItem, h]

theorem foldl_putItem_fresh (es : List Item) : ∀ t0 : Table,
    (∀ e ∈ es, List.any t0 (fun it => pyOptEqB (itemId it) (itemId e)) = false) →
    es.Pairwise (fun e1 e2 => pyOptEqB (itemId e1) (itemId e2) = false) →
    List.foldl putItem t0 es = t0 ++ es := by
  induction es with
  | nil => intro t0 _ _; simp
  | cons e rest ih =>
    intro t0 hfresh hpair
    have hput : putItem t0 e = t0 ++ [e] := putItem_fresh t0 e (hfresh e (by simp))
    have hrest : ∀ e2 ∈ rest,
        List.any (t0 ++ [e]) (fun it => pyOptEqB (itemId it) (itemId e2)) = false := by
      intro e2 he2
      have h1 := hfresh e2 (by simp [he2])
      have h2 : pyOptEqB (itemId e) (itemId e2) = false :=
        (List.pairwise_cons.mp hpair).1 e2 he2
      simp [List.any_append, h1, h2]
    calc List.foldl putItem t0 (e :: rest)
        = List.foldl putItem (t0 ++ [e]) rest := by rw [List.foldl_cons, hput]
      _ = (t0 ++ [e]) ++ rest := ih (t0 ++ [e]) hrest (List.Pairwise.of_cons hpair)
      _ = t0 ++ e :: rest := by simp

theorem removeId_of_absent (t : Table) (a : String)
    (h : ∀ it ∈ t, pyOptEqB (itemId it) (some (.pystr a)) = false) :
    removeId t a = t := by
  unfold removeId
  apply List.filter_eq_self.mpr
  intro it hit
  simp [h it hit]

theorem foldl_removeId_restore (ids : List String) : ∀ (es : List Item) (t0 : Table),
    List.map itemId es = List.map (fun a => some (PyVal.pystr a)) ids →
    (∀ a ∈ ids, ∀ it ∈ t0, pyOptEqB (itemId it) (some (.pystr a)) = false) →
    ids.Pairwise (fun a b => a ≠ b) →
    List.foldl removeId (t0 ++ es) ids = t0 := by
  induction ids with
  | nil =>
    intro es t0 hmap _ _
    cases es with
    | nil => simp
    | cons e es2 => simp at hmap
  | cons a as ih =>
    intro es t0 hmap hfresh hpair
    cases es with
    | nil => simp at hmap
    | cons e es2 =>
      simp only [List.map_cons, List.cons.injEq] at hmap
      obtain ⟨he, hes⟩ := hmap
      have h1 : removeId t0 a = t0 :=
        removeId_of_absent t0 a (fun it hit => hfresh a (by simp) it hit)
      have h2 : removeId (e :: es2) a = es2 := by
        unfold removeId
        have heq : pyOptEqB (itemId e) (some (.pystr a)) = true := by
          rw [he]
          simp [pyOptEqB, pyEq_str_self]
        have hcond : (!pyOptEqB (itemId e) (some (.pystr a))) = false := by
          rw [heq]
          rfl
        rw [List.filter_cons, hcond, if_neg (by simp)]
        apply List.filter_eq_self.mpr
        intro it hit
        have hmem : itemId it ∈ List.map (fun x => some (PyVal.pystr x)) as :=
          hes ▸ List.mem_map_of_mem itemId hit
        obtain ⟨b, hbas, hbe⟩ := List.mem_map.mp hmem
        have hba : (b == a) = false :=
          beq_eq_false_iff_ne.mpr (Ne.symm ((List.pairwise_cons.mp hpair).1 b hbas))
        rw [← hbe]
        simp [pyOptEqB, pyEq_str_str, hba]
      rw [List.foldl_cons]
      have hsplit : removeId (t0 ++ e :: es2) a = t0 ++ es2 := by
        unfold removeId
        rw [List.filter_append]
        have := h1
        unfold removeId at this
        rw [this]
        have := h2
        unfold removeId at this
        rw [this]
      rw [hsplit]
      exact ih es2 t0 hes (fun b hb it hit => hfresh b (by simp [hb]) it hit)
        (List.Pairwise.of_cons hpair)

theorem create_batchE_images (images : List DbImage) (pid : String) (t0 : Table)
    (hpid : pid ≠ "") :
    create_batchE ImageSchema (List.map dumpImage images) (some pid) none t0
      = .ok (true, List.foldl putItem t0
          (List.map (fun i => setAttr (decImageDump i) "product" (.pystr pid))
            images)) := by
  unfold create_batchE
  rw [mapExcept_dumpImage]
  simp only [ImageSchema, hpid, ne_eq, not_false_eq_true, and_true, List.map_map]
  simp only [if_pos (show ¬"product" = "" by decide)]
  rfl

theorem createE_fault (sch : Schema) (dump : Item) (p : Option String) (e : PyErr)
    (t : Table) : createE sch dump p (some e) t = .ok (false, t) := by
  unfold createE
  cases h : to_decimalsItem dump with
  | error e2 => rfl
  | ok entry => rfl

theorem listE_no_matching_items {T : Type} (parse : Item → Option T) (t : Table)
    (pid : String) (limit : Nat)
    (h : ∀ it ∈ t, pyOptEqB (getAttr it "product") (some (.pystr pid)) = false) :
    listE ImageSchema parse t pid limit none none = .ok ([], some "None") := by
  unfold listE
  have hf : List.filter
      (fun it => pyOptEqB (getAttr it "product") (some (.pystr pid))) t = [] := by
    apply List.filter_eq_nil_iff.mpr
    intro it hit
    simp [h it hit]
  simp only [ImageSchema]
  rw [if_neg (by decide)]
  rw [if_neg (show ¬(truthy none = true) by decide)]
  rw [hf]
  simp only [show sortByCreatedDesc [] = ([] : List Item) from rfl]
  rw [if_neg (by rintro ⟨h1, h2⟩; simp only [List.length_nil, Nat.le_zero] at h2; omega)]
  simp only [List.take_nil]
  rfl

/-- Against a partitioned schema with any entity to delete, the batch delete is
rejected by the store and returns `False`, leaving the table untouched. -/
theorem delete_batchE_partitioned_rejected (sch : Schema) (pk : String)
    (ids : List String) (p : Option String) (t : Table)
    (hpk : sch.partition_key = some pk) (hpkne : pk ≠ "") (hids : ids ≠ []) :
    delete_batchE sch ids p none t = .ok (false, t) := by
  cases ids with
  | nil => exact absurd rfl hids
  | cons a as =>
    simp only [delete_batchE, hpk]
    rw [if_neg hpkne]
    rfl

/-- C1: the claim says that when image creation succeeds and product creation
then fails, the saga compensates by `deleteBatch(images, product.id)` so that
a subsequent `list` over that product partition returns zero images.  The saga
does invoke that compensation, but `delete_batch` (base.py:224-240) adds the
partition attribute to the `{"id": ...}` key the table is defined by, the
store rejects the malformed key (`ValidationException`), and the caught
exception makes `delete_batch` return `False` having deleted nothing - so
after the abort the created image is still stored and `list` over the product
partition returns that image, not zero.  Evaluated here at the concrete
failing input: one request image, a store fault on `create(product)`, empty
initial stores. -/
theorem c1_saga_compensation_fails_images_remain :
    createReportSaga
        { title := "Kitchen Tile",
          reference := { model := "Subway White",
                         images := some [{ image := "tile.png" }] } }
        "alice" (fun n => "gid" ++ toString n) "T1" none
        (some (.clientError "InternalServerError")) none ⟨[], [], []⟩
      = .ok (.abortedProduct,
          ⟨[[("id", .pystr "gid0"), ("image", .pystr "tile.png"),
             ("product", .pystr "gid1"), ("created_at", .pystr "T1")]], [], []⟩) ∧
    delete_batchE ImageSchema ["gid0"] (some "gid1") none
        [[("id", .pystr "gid0"), ("image", .pystr "tile.png"),
          ("product", .pystr "gid1"), ("created_at", .pystr "T1")]]
      = .ok (false,
          [[("id", .pystr "gid0"), ("image", .pystr "tile.png"),
            ("product", .pystr "gid1"), ("created_at", .pystr "T1")]]) ∧
    listE ImageSchema (fun it => (some it : Option Item))
        [[("id", .pystr "gid0"), ("image", .pystr "tile.png"),
          ("product", .pystr "gid1"), ("created_at", .pystr "T1")]]
        "gid1" 20 none none
      = .ok ([[("id", .pystr "gid0"), ("image", .pystr "tile.png"),
               ("product", .pystr "gid1"), ("created_at", .pystr "T1")]],
             some "None") ∧
    ([[("id", .pystr "gid0"), ("image", .pystr "tile.png"),
       ("product", .pystr "gid1"), ("created_at", .pystr "T1")]] : List Item)
      ≠ [] :=
  ⟨rfl, rfl, rfl, by simp⟩

/-! ## The codec round trip on boolean-free native values

Complementing C3: on every value built only from ints, floats, strings, null,
lists and dicts - i.e. excluding the booleans that crash `to_decimals` and the
already-converted decimals - the round trip returns a value Python-equal to
the input. -/

mutual

/-- A native value containing no boolean (and no Decimal) leaf. -/
def nativeNoBool : PyVal → Bool
  | .pybool _ => false
  | .pydec _ _ => false
  | .pylist xs => nativeNoBoolL xs
  | .pydict xs => nativeNoBoolD xs
  | _ => true

def nativeNoBoolL : List PyVal → Bool
  | [] => true
  | x :: xs => nativeNoBool x && nativeNoBoolL xs

def nativeNoBoolD : List (String × PyVal) → Bool
  | [] => true
  | (_, v) :: xs => nativeNoBool v && nativeNoBoolD xs

end

theorem pyEq_int_float (a m : Int) (s : Nat) :
    pyEq (.pyint a) (.pyfloat m s)
      = (a * (10 : Int) ^ s == m * (10 : Int) ^ 0) := rfl

theorem pyEq_float_float (m1 m2 : Int) (s1 s2 : Nat) :
    pyEq (.pyfloat m1 s1) (.pyfloat m2 s2)
      = (m1 * (10 : Int) ^ s2 == m2 * (10 : Int) ^ s1) := rfl

theorem pyEq_int_int (a b : Int) :
    pyEq (.pyint a) (.pyint b)
      = (a * (10 : Int) ^ 0 == b * (10 : Int) ^ 0) := rfl

theorem from_decimals_pydec_eq (m : Int) (s : Nat)
    (v : PyVal) (hv : v = .pyfloat m s ∨ (s = 0 ∧ v = .pyint m)) :
    pyEq (from_decimals (.pydec m s)) v = true := by
  have hfd : from_decimals (.pydec m s)
      = if m % (10 : Int) ^ s == 0 then .pyint (m / (10 : Int) ^ s)
        else .pyfloat m s := rfl
  rw [hfd]
  by_cases h : (m % (10 : Int) ^ s == 0) = true
  · rw [if_pos h]
    have hdvd : (10 : Int) ^ s ∣ m := Int.dvd_of_emod_eq_zero (beq_iff_eq.mp h)
    have hmul : m / (10 : Int) ^ s * (10 : Int) ^ s = m := Int.ediv_mul_cancel hdvd
    rcases hv with hv | ⟨hs, hv⟩
    · rw [hv, pyEq_int_float, hmul, pow_zero, mul_one]
      exact beq_self_eq_true m
    · subst hs
      rw [hv, pyEq_int_int]
      simp only [pow_zero, mul_one] at hmul ⊢
      rw [hmul]
      exact beq_self_eq_true m
  · rw [if_neg h]
    rcases hv with hv | ⟨hs, hv⟩
    · rw [hv, pyEq_float_float]
      exact beq_self_eq_true _
    · subst hs
      exfalso
      apply h
      simp

mutual

theorem roundTrip_noBool : ∀ v : PyVal, nativeNoBool v = true →
    ∃ w, to_decimals v = .ok w ∧ pyEq (from_decimals w) v = true
  | .pyint n, _ =>
    ⟨.pydec n 0, rfl, from_decimals_pydec_eq n 0 (.pyint n) (.inr ⟨rfl, rfl⟩)⟩
  | .pyfloat m s, _ =>
    ⟨.pydec m s, rfl, from_decimals_pydec_eq m s (.pyfloat m s) (.inl rfl)⟩
  | .pystr x, _ => ⟨.pystr x, rfl, beq_self_eq_true x⟩
  | .pynone, _ => ⟨.pynone, rfl, rfl⟩
  | .pylist xs, h => by
    obtain ⟨ys, hys, heq⟩ := roundTrip_noBoolL xs (by simpa [nativeNoBool] using h)
    refine ⟨.pylist ys, ?_, ?_⟩
    · show (match toDecL xs with
        | .ok ys => Except.ok (PyVal.pylist ys)
        | .error e => Except.error e) = .ok (.pylist ys)
      rw [hys]
    · show pyEqL (fromDecL ys) xs = true
      exact heq
  | .pydict xs, h => by
    obtain ⟨ys, hys, heq⟩ := roundTrip_noBoolD xs (by simpa [nativeNoBool] using h)
    refine ⟨.pydict ys, ?_, ?_⟩
    · show (match toDecD xs with
        | .ok ys => Except.ok (PyVal.pydict ys)
        | .error e => Except.error e) = .ok (.pydict ys)
      rw [hys]
    · show pyEqD (fromDecD ys) xs = true
      exact heq

theorem roundTrip_noBoolL : ∀ xs : List PyVal, nativeNoBoolL xs = true →
    ∃ ys, toDecL xs = .ok ys ∧ pyEqL (fromDecL ys) xs = true
  | [], _ => ⟨[], rfl, rfl⟩
  | x :: xs, h => by
    have hsplit : nativeNoBool x = true ∧ nativeNoBoolL xs = true := by
      have h2 := h
      rw [nativeNoBoolL, Bool.and_eq_true] at h2
      exact h2
    obtain ⟨y, hy, hey⟩ := roundTrip_noBool x hsplit.1
    obtain ⟨ys, hys, heys⟩ := roundTrip_noBoolL xs hsplit.2
    refine ⟨y :: ys, ?_, ?_⟩
    · rw [toDecL, hy, hys]
    · rw [fromDecL, pyEqL, hey, heys]
      rfl

theorem roundTrip_noBoolD : ∀ xs : List (String × PyVal), nativeNoBoolD xs = true →
    ∃ ys, toDecD xs = .ok ys ∧ pyEqD (fromDecD ys) xs = true
  | [], _ => ⟨[], rfl, rfl⟩
  | (k, v) :: xs, h => by
    have hsplit : nativeNoBool v = true ∧ nativeNoBoolD xs = true := by
      have h2 := h
      rw [nativeNoBoolD, Bool.and_eq_true] at h2
      exact h2
    obtain ⟨w, hw, hew⟩ := roundTrip_noBool v hsplit.1
    obtain ⟨ys, hys, heys⟩ := roundTrip_noBoolD xs hsplit.2
    refine ⟨(k, w) :: ys, ?_, ?_⟩
    · rw [toDecD, hw, hys]
    · rw [fromDecD, pyEqD, hew, heys]
      simp

end
